import Mathlib

/-!
Verification of the deterministic scoring engine of `dc-site-scout`
(`rank_sites` in `src/app.py`, lines 109-163).

The engine is embedded shallowly: Python dict sites become a `Site`
structure with optional numeric attributes (a missing dict key is
`none`); numeric values are exact rationals; Python's built-in
`round` (round-half-to-even on the exact value) is `pyRound`;
Python's stable `sorted(..., key=..., reverse=True)` is the stable
descending insertion sort `sortByScoreDesc`.
-/

namespace DCSiteScout

/-- One candidate location, as the dicts consumed by `rank_sites`:
`name`, `lat`, `lon` always present, the five numeric attributes
optional (`none` models an absent dict key). -/
structure Site where
  name : String
  lat : ℚ
  lon : ℚ
  elev_m : Option ℚ
  flood_pct : Option ℚ
  power_km : Option ℚ
  latency_ms : Option ℚ
  cost_mw : Option ℚ
deriving DecidableEq

/-- A site augmented by `rank_sites` with the five derived fields
(the Python code builds each output dict as the spread of the input
dict plus exactly these keys). -/
structure RankedSite extends Site where
  score : ℤ
  tier : String
  risk_level : String
  color : String
  justification : String
deriving DecidableEq

/-- Python's built-in `round` to an integer: round half to even on
the exact value. -/
def pyRound (q : ℚ) : ℤ :=
  if q - Int.floor q < 1/2 then Int.floor q
  else if 1/2 < q - Int.floor q then Int.floor q + 1
  else if Int.floor q % 2 = 0 then Int.floor q else Int.floor q + 1

/-- Power-distance penalty of line 118:
the source reads min of site power distance times 3 and 15, with
sentinel default 5 for a missing key. -/
def powerTerm (s : Site) : ℚ := min (s.power_km.getD 5 * 3) 15

/-- Flood penalty of line 121: min of flood percentage times 1.5 and
25, sentinel default 10. -/
def floodTerm (s : Site) : ℚ := min (s.flood_pct.getD 10 * 1.5) 25

/-- Latency penalty of line 124: min of latency minus 5 times 0.8
and 15, sentinel default 20. -/
def latencyTerm (s : Site) : ℚ := min ((s.latency_ms.getD 20 - 5) * 0.8) 15

/-- Energy-cost penalty of line 127: min of cost minus 40 times 0.3
and 10, sentinel default 60. -/
def costTerm (s : Site) : ℚ := min ((s.cost_mw.getD 60 - 40) * 0.3) 10

/-- Elevation bonus of lines 130-131: 5 points when elevation,
defaulting to 0, strictly exceeds 200. -/
def elevBonus (s : Site) : ℚ := if s.elev_m.getD 0 > 200 then 5 else 0

/-- The score accumulated before normalization: start at 100,
subtract the four penalty terms, add the elevation bonus. -/
def preScore (s : Site) : ℚ :=
  100 - powerTerm s - floodTerm s - latencyTerm s - costTerm s + elevBonus s

/-- Normalization of line 134: round, then clamp to the interval
from 0 to 100. -/
def scoreVal (s : Site) : ℤ := max (min (pyRound (preScore s)) 100) 0

/-- Tier string from the normalized score (lines 137-148). -/
def tierOf (z : ℤ) : String :=
  if z ≥ 85 then "Tier 1: Ready to Build"
  else if z ≥ 70 then "Tier 2: Investigate Further"
  else "Tier 3: High Risk"

/-- Risk-level string from the normalized score (lines 137-148). -/
def riskOf (z : ℤ) : String :=
  if z ≥ 85 then "Low Risk" else if z ≥ 70 then "Medium Risk" else "High Risk"

/-- Marker color from the normalized score (lines 137-148). -/
def colorOf (z : ℤ) : String :=
  if z ≥ 85 then "green" else if z ≥ 70 then "orange" else "red"

/-- Rendering of one optional metric inside the justification
f-string of line 151: Python interpolates the raw value when the key
is present and the literal string N/A otherwise. -/
def metricText (o : Option ℚ) : String :=
  match o with
  | none => "N/A"
  | some q => toString q

/-- The fixed-format justification f-string of line 151. -/
def justificationOf (s : Site) : String :=
  "Power: " ++ metricText s.power_km ++ "km | Flood: " ++
    metricText s.flood_pct ++ "% | Latency: " ++ metricText s.latency_ms ++
    "ms | Energy: $" ++ metricText s.cost_mw ++ "/MWh"

/-- The per-site body of the loop in `rank_sites`: score, tier, risk
level, color and justification appended to the spread of the input
dict (lines 113-160). -/
def scoreSite (s : Site) : RankedSite :=
  { toSite := s
    score := scoreVal s
    tier := tierOf (scoreVal s)
    risk_level := riskOf (scoreVal s)
    color := colorOf (scoreVal s)
    justification := justificationOf s }

/-- Insert one ranked site into an already-processed suffix of later
sites: it goes in front of the first later site whose score is not
larger, which keeps descending order and input order on ties. -/
def insertByScore (x : RankedSite) : List RankedSite → List RankedSite
  | [] => [x]
  | y :: ys => if y.score ≤ x.score then x :: y :: ys else y :: insertByScore x ys

/-- The stable descending sort by score of line 163. -/
def sortByScoreDesc : List RankedSite → List RankedSite
  | [] => []
  | x :: xs => insertByScore x (sortByScoreDesc xs)

/-- The whole of `rank_sites`: score every site, then sort by score
descending. -/
def rank_sites (sites : List Site) : List RankedSite :=
  sortByScoreDesc (sites.map scoreSite)

/-- Scenario site A of the spec (the Ashburn demo row). -/
def siteA : Site :=
  { name := "A", lat := 0, lon := 0, elev_m := some 85, flood_pct := some 1.2,
    power_km := some 0.8, latency_ms := some 8, cost_mw := some 52 }

/-- Scenario site B of the spec (the Aurora demo row). -/
def siteB : Site :=
  { name := "B", lat := 0, lon := 0, elev_m := some 215, flood_pct := some 15.7,
    power_km := some 6.8, latency_ms := some 14, cost_mw := some 68 }

/-- A site with a deliberately extreme flood percentage of 1000 and
every other optional attribute absent. -/
def siteExtreme : Site :=
  { name := "X", lat := 0, lon := 0, elev_m := none, flood_pct := some 1000,
    power_km := none, latency_ms := none, cost_mw := none }

/-- A site with latency below 5 ms and energy cost below 40, where
the latency and cost terms both go negative. -/
def siteFast : Site :=
  { name := "F", lat := 0, lon := 0, elev_m := none, flood_pct := some 1,
    power_km := some 1, latency_ms := some 3, cost_mw := some 30 }

/-- A site whose optional attributes are all absent. -/
def bareSite (n : String) (la lo : ℚ) : Site :=
  { name := n, lat := la, lon := lo, elev_m := none, flood_pct := none,
    power_km := none, latency_ms := none, cost_mw := none }

section Helpers

theorem pyRound_nearest (q : ℚ) : |q - (pyRound q : ℚ)| ≤ 1/2 := by
  have h0 : ((Int.floor q : ℤ) : ℚ) ≤ q := Int.floor_le q
  have h1 : q < (Int.floor q : ℚ) + 1 := Int.lt_floor_add_one q
  unfold pyRound
  split_ifs with hlt hgt heven
  · rw [abs_le]
    constructor <;> linarith
  · rw [abs_le]
    push_cast
    constructor <;> linarith
  · rw [abs_le]
    have hf : q - (Int.floor q : ℚ) = 1/2 := le_antisymm (not_lt.mp hgt) (not_lt.mp hlt)
    constructor <;> linarith
  · rw [abs_le]
    have hf : q - (Int.floor q : ℚ) = 1/2 := le_antisymm (not_lt.mp hgt) (not_lt.mp hlt)
    push_cast
    constructor <;> linarith

theorem preScore_siteA : preScore siteA = 449/5 := by
  norm_num [preScore, powerTerm, floodTerm, latencyTerm, costTerm, elevBonus, siteA,
    min_def]

theorem pyRound_scoreA : pyRound (449/5) = 90 := by
  norm_num [pyRound]

theorem scoreVal_siteA : scoreVal siteA = 90 := by
  rw [scoreVal, preScore_siteA, pyRound_scoreA]
  norm_num [min_def, max_def]

theorem preScore_siteB : preScore siteB = 1017/20 := by
  norm_num [preScore, powerTerm, floodTerm, latencyTerm, costTerm, elevBonus, siteB,
    min_def]

theorem pyRound_scoreB : pyRound (1017/20) = 51 := by
  norm_num [pyRound]

theorem scoreVal_siteB : scoreVal siteB = 51 := by
  rw [scoreVal, preScore_siteB, pyRound_scoreB]
  norm_num [min_def, max_def]

end Helpers

/-- C1: the pre-normalization score is 100 minus the four capped
penalty terms plus the 5-point bonus exactly when elevation strictly
exceeds 200, then rounded to a nearest integer and clamped to the
interval from 0 to 100; scenario A scores 90 and lands in Tier 1,
scenario B scores 51 and lands in Tier 3. -/
theorem score_formula_spec :
    (∀ s : Site, (scoreSite s).score =
      max (min (pyRound (100 - min (s.power_km.getD 5 * 3) 15
        - min (s.flood_pct.getD 10 * 1.5) 25
        - min ((s.latency_ms.getD 20 - 5) * 0.8) 15
        - min ((s.cost_mw.getD 60 - 40) * 0.3) 10
        + if s.elev_m.getD 0 > 200 then 5 else 0)) 100) 0)
    ∧ (∀ q : ℚ, |q - (pyRound q : ℚ)| ≤ 1/2)
    ∧ (scoreSite siteA).score = 90
    ∧ (scoreSite siteA).tier = "Tier 1: Ready to Build"
    ∧ (scoreSite siteB).score = 51
    ∧ (scoreSite siteB).tier = "Tier 3: High Risk" := by
  refine ⟨fun s => rfl, pyRound_nearest, scoreVal_siteA, ?_, scoreVal_siteB, ?_⟩
  · show tierOf (scoreVal siteA) = _
    rw [scoreVal_siteA]
    norm_num [tierOf]
  · show tierOf (scoreVal siteB) = _
    rw [scoreVal_siteB]
    norm_num [tierOf]

/-- C2: every produced score is an integer in the interval from 0 to
100, the extreme flood input included (flood percentage 1000 scores
42). -/
theorem score_bounds :
    (∀ s : Site, 0 ≤ (scoreSite s).score ∧ (scoreSite s).score ≤ 100)
    ∧ (scoreSite siteExtreme).score = 42 := by
  constructor
  · intro s
    refine ⟨le_max_right _ _, max_le (le_trans (min_le_right _ _) le_rfl) (by norm_num)⟩
  · show scoreVal siteExtreme = 42
    have h : preScore siteExtreme = 42 := by
      norm_num [preScore, powerTerm, floodTerm, latencyTerm, costTerm, elevBonus,
        siteExtreme, min_def]
    rw [scoreVal, h]
    norm_num [pyRound, min_def, max_def]

/-- C3: tier and risk level are functions of the final integer score
alone, with the fixed boundaries 85 and 70; in particular 85 gives
Tier 1, 84 gives Tier 2, 70 gives Tier 2 and 69 gives Tier 3. -/
theorem tier_risk_thresholds :
    (∀ s : Site, (scoreSite s).tier = tierOf (scoreSite s).score
      ∧ (scoreSite s).risk_level = riskOf (scoreSite s).score)
    ∧ (∀ z : ℤ,
        (85 ≤ z → tierOf z = "Tier 1: Ready to Build" ∧ riskOf z = "Low Risk")
        ∧ (70 ≤ z ∧ z < 85 →
            tierOf z = "Tier 2: Investigate Further" ∧ riskOf z = "Medium Risk")
        ∧ (z < 70 → tierOf z = "Tier 3: High Risk" ∧ riskOf z = "High Risk"))
    ∧ tierOf 85 = "Tier 1: Ready to Build" ∧ tierOf 84 = "Tier 2: Investigate Further"
    ∧ tierOf 70 = "Tier 2: Investigate Further" ∧ tierOf 69 = "Tier 3: High Risk" := by
  refine ⟨fun s => ⟨rfl, rfl⟩, fun z => ⟨?_, ?_, ?_⟩, by decide, by decide,
    by decide, by decide⟩
  · intro h
    rw [tierOf, riskOf, if_pos (by omega), if_pos (by omega)]
    exact ⟨rfl, rfl⟩
  · intro h
    rw [tierOf, riskOf, if_neg (by omega), if_pos (by omega),
      if_neg (by omega), if_pos (by omega)]
    exact ⟨rfl, rfl⟩
  · intro h
    rw [tierOf, riskOf, if_neg (by omega), if_neg (by omega),
      if_neg (by omega), if_neg (by omega)]
    exact ⟨rfl, rfl⟩

/-- C3 witness: the general boundary conjuncts applied at the
concrete scores 90, 72 and 50. -/
theorem tier_risk_thresholds_witness :
    tierOf 90 = "Tier 1: Ready to Build"
    ∧ riskOf 72 = "Medium Risk"
    ∧ tierOf 50 = "Tier 3: High Risk" :=
  ⟨((tier_risk_thresholds.2.1 90).1 (by norm_num)).1,
   ((tier_risk_thresholds.2.1 72).2.1 (by norm_num)).2,
   ((tier_risk_thresholds.2.1 50).2.2 (by norm_num)).1⟩

section SortHelpers

theorem length_insertByScore (x : RankedSite) (l : List RankedSite) :
    (insertByScore x l).length = l.length + 1 := by
  induction l with
  | nil => rfl
  | cons y ys ih =>
    simp only [insertByScore]
    split_ifs
    · rfl
    · simp [ih]

theorem length_sortByScoreDesc (l : List RankedSite) :
    (sortByScoreDesc l).length = l.length := by
  induction l with
  | nil => rfl
  | cons x xs ih => simp [sortByScoreDesc, length_insertByScore, ih]

theorem mem_insertByScore {a x : RankedSite} {l : List RankedSite} :
    a ∈ insertByScore x l ↔ a = x ∨ a ∈ l := by
  induction l with
  | nil => simp [insertByScore]
  | cons y ys ih =>
    simp only [insertByScore]
    split_ifs
    · simp [or_comm, or_left_comm]
    · simp only [List.mem_cons, ih]
      tauto

theorem sorted_insertByScore (x : RankedSite) {l : List RankedSite}
    (h : List.Sorted (fun a b : RankedSite => b.score ≤ a.score) l) :
    List.Sorted (fun a b : RankedSite => b.score ≤ a.score) (insertByScore x l) := by
  induction l with
  | nil => simp [insertByScore]
  | cons y ys ih =>
    rw [List.sorted_cons] at h
    obtain ⟨hy, hys⟩ := h
    by_cases hc : y.score ≤ x.score
    · simp only [insertByScore, if_pos hc]
      rw [List.sorted_cons]
      refine ⟨?_, ?_⟩
      · intro b hb
        rcases List.mem_cons.mp hb with rfl | hb
        · exact hc
        · exact le_trans (hy b hb) hc
      · rw [List.sorted_cons]
        exact ⟨hy, hys⟩
    · simp only [insertByScore, if_neg hc]
      rw [List.sorted_cons]
      refine ⟨?_, ih hys⟩
      intro b hb
      rcases mem_insertByScore.mp hb with rfl | hb
      · exact le_of_lt (not_le.mp hc)
      · exact hy b hb

theorem sorted_sortByScoreDesc (l : List RankedSite) :
    List.Sorted (fun a b : RankedSite => b.score ≤ a.score) (sortByScoreDesc l) := by
  induction l with
  | nil => simp [sortByScoreDesc]
  | cons x xs ih => exact sorted_insertByScore x ih

theorem filter_insertByScore_eq {x : RankedSite} {c : ℤ} (hx : x.score = c)
    (l : List RankedSite) :
    (insertByScore x l).filter (fun r => decide (r.score = c))
      = x :: l.filter (fun r => decide (r.score = c)) := by
  induction l with
  | nil => simp [insertByScore, hx]
  | cons y ys ih =>
    simp only [insertByScore]
    split_ifs with h
    · simp [List.filter_cons, hx]
    · have hy : ¬ y.score = c := by omega
      simp [List.filter_cons, hy, ih]

theorem filter_insertByScore_ne {x : RankedSite} {c : ℤ} (hx : ¬ x.score = c)
    (l : List RankedSite) :
    (insertByScore x l).filter (fun r => decide (r.score = c))
      = l.filter (fun r => decide (r.score = c)) := by
  induction l with
  | nil => simp [insertByScore, hx]
  | cons y ys ih =>
    simp only [insertByScore]
    split_ifs with h
    · simp [List.filter_cons, hx]
    · simp [List.filter_cons, ih]

theorem filter_sortByScoreDesc (l : List RankedSite) (c : ℤ) :
    (sortByScoreDesc l).filter (fun r => decide (r.score = c))
      = l.filter (fun r => decide (r.score = c)) := by
  induction l with
  | nil => rfl
  | cons x xs ih =>
    by_cases hx : x.score = c
    · rw [sortByScoreDesc, filter_insertByScore_eq hx, ih, List.filter_cons]
      simp [hx]
    · rw [sortByScoreDesc, filter_insertByScore_ne hx, ih, List.filter_cons]
      simp [hx]

end SortHelpers

/-- C4: the output of `rank_sites` always has exactly the length of
the input; the empty input yields the empty output and a singleton
input yields a singleton output. -/
theorem rank_sites_length :
    (∀ l : List Site, (rank_sites l).length = l.length)
    ∧ rank_sites [] = []
    ∧ (∀ s : Site, (rank_sites [s]).length = 1) := by
  have hlen : ∀ l : List Site, (rank_sites l).length = l.length := by
    intro l
    rw [rank_sites, length_sortByScoreDesc, List.length_map]
  exact ⟨hlen, rfl, fun s => hlen [s]⟩

/-- C5: the output of `rank_sites` is sorted by score in descending
order, and the sort is stable: for every score value, the output
sites carrying that score are exactly the scored input sites carrying
it, in input order. -/
theorem rank_sites_sorted_stable :
    ∀ l : List Site,
      List.Sorted (fun a b : RankedSite => b.score ≤ a.score) (rank_sites l)
      ∧ ∀ c : ℤ, (rank_sites l).filter (fun r => decide (r.score = c))
          = (l.map scoreSite).filter (fun r => decide (r.score = c)) := by
  intro l
  exact ⟨sorted_sortByScoreDesc _, fun c => filter_sortByScoreDesc _ c⟩

/-- C6: the latency and energy-cost terms are not clamped to be
non-negative: a present latency below 5 makes the latency term
negative, a present cost below 40 makes the cost term negative, and
in both cases the pre-clamp score strictly exceeds what it would be
without that term. -/
theorem negative_terms_boost_score :
    (∀ (s : Site) (v : ℚ), s.latency_ms = some v → v < 5 →
      latencyTerm s < 0
      ∧ 100 - powerTerm s - floodTerm s - costTerm s + elevBonus s < preScore s)
    ∧ (∀ (s : Site) (c : ℚ), s.cost_mw = some c → c < 40 →
      costTerm s < 0
      ∧ 100 - powerTerm s - floodTerm s - latencyTerm s + elevBonus s < preScore s) := by
  constructor
  · intro s v hv hlt
    have hterm : latencyTerm s < 0 := by
      rw [latencyTerm, hv, Option.getD_some]
      have hneg : (v - 5) * 0.8 < 0 := mul_neg_of_neg_of_pos (by linarith) (by norm_num)
      exact lt_of_le_of_lt (min_le_left _ _) hneg
    refine ⟨hterm, ?_⟩
    rw [preScore]
    linarith
  · intro s c hc hlt
    have hterm : costTerm s < 0 := by
      rw [costTerm, hc, Option.getD_some]
      have hneg : (c - 40) * 0.3 < 0 := mul_neg_of_neg_of_pos (by linarith) (by norm_num)
      exact lt_of_le_of_lt (min_le_left _ _) hneg
    refine ⟨hterm, ?_⟩
    rw [preScore]
    linarith

/-- C6 witness: at `siteFast` (latency 3, cost 30) both terms are
negative. -/
theorem negative_terms_boost_score_witness :
    latencyTerm siteFast < 0 ∧ costTerm siteFast < 0 :=
  ⟨(negative_terms_boost_score.1 siteFast 3 rfl (by norm_num)).1,
   (negative_terms_boost_score.2 siteFast 30 rfl (by norm_num)).1⟩

/-- C7: a missing optional attribute scores exactly like the
explicit sentinel default (power 5, flood 10, latency 20, cost 60,
elevation 0), and a site carrying only name, latitude and longitude
is scored totally, giving score 52 in Tier 3 within bounds. -/
theorem defaults_for_missing_fields :
    (∀ s : Site,
      scoreVal { s with power_km := none } = scoreVal { s with power_km := some 5 }
      ∧ scoreVal { s with flood_pct := none } = scoreVal { s with flood_pct := some 10 }
      ∧ scoreVal { s with latency_ms := none } = scoreVal { s with latency_ms := some 20 }
      ∧ scoreVal { s with cost_mw := none } = scoreVal { s with cost_mw := some 60 }
      ∧ scoreVal { s with elev_m := none } = scoreVal { s with elev_m := some 0 })
    ∧ (∀ (n : String) (la lo : ℚ),
      (scoreSite (bareSite n la lo)).score = 52
      ∧ (scoreSite (bareSite n la lo)).tier = "Tier 3: High Risk"
      ∧ 0 ≤ (scoreSite (bareSite n la lo)).score
      ∧ (scoreSite (bareSite n la lo)).score ≤ 100) := by
  constructor
  · intro s
    refine ⟨?_, ?_, ?_, ?_, ?_⟩ <;>
      simp [scoreVal, preScore, powerTerm, floodTerm, latencyTerm, costTerm, elevBonus]
  · intro n la lo
    have hpre : preScore (bareSite n la lo) = 52 := by
      norm_num [preScore, powerTerm, floodTerm, latencyTerm, costTerm, elevBonus,
        bareSite, min_def]
    have hval : scoreVal (bareSite n la lo) = 52 := by
      rw [scoreVal, hpre]
      norm_num [pyRound, min_def, max_def]
    refine ⟨hval, ?_, ?_, ?_⟩
    · show tierOf (scoreVal (bareSite n la lo)) = _
      rw [hval]
      decide
    · show (0:ℤ) ≤ scoreVal (bareSite n la lo)
      rw [hval]
      norm_num
    · show scoreVal (bareSite n la lo) ≤ 100
      rw [hval]
      norm_num

/-- C8: `rank_sites` is deterministic — any two results of running it
on the same input sequence are equal. -/
theorem rank_sites_deterministic :
    ∀ (l : List Site) (r₁ r₂ : List RankedSite),
      rank_sites l = r₁ → rank_sites l = r₂ → r₁ = r₂ := by
  intro l r₁ r₂ h₁ h₂
  rw [← h₁, ← h₂]

/-- C8 witness: two invocations on the singleton scenario input
coincide. -/
theorem rank_sites_deterministic_witness :
    rank_sites [siteA] = rank_sites [siteA] :=
  rank_sites_deterministic [siteA] (rank_sites [siteA]) (rank_sites [siteA]) rfl rfl

/-- C9: the justification is the fixed-format interpolation of the
four raw metrics, a metric absent from the input rendering as the
literal N/A rather than its scoring sentinel; with all four absent
the string is exactly the all-N/A rendering. -/
theorem justification_format :
    (∀ s : Site, (scoreSite s).justification =
      "Power: " ++ metricText s.power_km ++ "km | Flood: " ++ metricText s.flood_pct ++
        "% | Latency: " ++ metricText s.latency_ms ++ "ms | Energy: $" ++
        metricText s.cost_mw ++ "/MWh")
    ∧ metricText none = "N/A"
    ∧ (∀ q : ℚ, metricText (some q) = toString q)
    ∧ (∀ (n : String) (la lo : ℚ), (scoreSite (bareSite n la lo)).justification =
        "Power: N/Akm | Flood: N/A% | Latency: N/Ams | Energy: $N/A/MWh") :=
  ⟨fun _ => rfl, rfl, fun _ => rfl, fun _ _ _ => rfl⟩

/-- C10: the output record keeps every input field unchanged (its
`Site` part is the input itself) and only adds the five derived
fields; the color is green exactly on scores of at least 85, orange
exactly on scores from 70 up to but excluding 85, and red exactly
below 70. -/
theorem output_preserves_input_fields :
    ∀ s : Site, (scoreSite s).toSite = s
      ∧ ((scoreSite s).color = "green" ↔ 85 ≤ (scoreSite s).score)
      ∧ ((scoreSite s).color = "orange" ↔
          70 ≤ (scoreSite s).score ∧ (scoreSite s).score < 85)
      ∧ ((scoreSite s).color = "red" ↔ (scoreSite s).score < 70) := by
  intro s
  have hgo : ("orange" : String) ≠ "green" := by decide
  have hro : ("red" : String) ≠ "green" := by decide
  have hrg : ("green" : String) ≠ "orange" := by decide
  have hor : ("red" : String) ≠ "orange" := by decide
  have hgr : ("green" : String) ≠ "red" := by decide
  have hog : ("orange" : String) ≠ "red" := by decide
  have hc : (scoreSite s).color = colorOf (scoreVal s) := rfl
  have hs : (scoreSite s).score = scoreVal s := rfl
  refine ⟨rfl, ?_, ?_, ?_⟩ <;>
    · rw [hc, hs, colorOf]
      split_ifs with h1 h2 <;> simp_all <;> omega

end DCSiteScout
